import Mathlib

/-!
Verification of the frommer-watcher script (src/frommer_watcher.py).

The script is embedded shallowly: its pure fragments become Lean functions
over `String` and `List`; the network and the HTML library are passed in as
explicit oracle functions, so that every observable decision of the code
(status handling, parsing guards, matching, deduplication, message
composition, notification gating) is a total computable Lean definition.
-/

namespace FrommerWatcher

/-- ASCII lower-casing of one character: Python str.lower restricted to the
ASCII range, which covers every keyword and comparison in this development. -/
def lowerChar (c : Char) : Char :=
  if 65 ≤ c.toNat ∧ c.toNat ≤ 90 then Char.ofNat (c.toNat + 32) else c

/-- Models Python str.lower. -/
def lower (s : String) : String := String.mk (s.data.map lowerChar)

/-- Substring test on character lists: models the Python `in` operator on
strings, and a regular-expression search for an alternation of literal
patterns reduces to it. -/
def infixOfB (pat : List Char) : List Char → Bool
  | [] => pat.isEmpty
  | a :: t => pat.isPrefixOf (a :: t) || infixOfB pat t

/-- Models Python str.startswith. -/
def startswith (s pre : String) : Bool := pre.data.isPrefixOf s.data

/-- Models Python lstrip with a slash argument: drops every leading slash. -/
def lstripSlash (s : String) : String :=
  String.mk (s.data.dropWhile (fun c => c == '/'))

/-- Models Python str.join. -/
def pyJoin (sep : String) : List String → String
  | [] => ""
  | [x] => x
  | x :: y :: rest => x ++ sep ++ pyJoin sep (y :: rest)

/-- Models str.format for the site URL templates, whose only replacement
field is the query placeholder named q (an opening brace, the letter q, a
closing brace): that three-character sequence is replaced by the query. -/
def format_fill (q : List Char) : List Char → List Char
  | [] => []
  | [a] => [a]
  | [a, b] => [a, b]
  | a :: b :: c :: rest =>
    if a = Char.ofNat 123 ∧ b = 'q' ∧ c = Char.ofNat 125 then q ++ format_fill q rest
    else a :: format_fill q (b :: c :: rest)

/-- Models tmpl.format with the query substituted for the placeholder. -/
def format_q (tmpl q : String) : String := String.mk (format_fill q.data tmpl.data)

/-- One hexadecimal digit, upper case, as percent-encoding writes it. -/
def hexDigitChar (n : Nat) : Char :=
  if n < 10 then Char.ofNat (48 + n) else Char.ofNat (55 + n)

/-- Percent-encoding of one byte value. -/
def pctByte (n : Nat) : List Char :=
  ['%', hexDigitChar (n / 16 % 16), hexDigitChar (n % 16)]

/-- The UTF-8 bytes of one character, as percent-encoding consumes them. -/
def utf8Bytes (c : Char) : List Nat :=
  let n := c.toNat
  if n < 128 then [n]
  else if n < 2048 then [192 + n / 64, 128 + n % 64]
  else if n < 65536 then [224 + n / 4096, 128 + n / 64 % 64, 128 + n % 64]
  else [240 + n / 262144, 128 + n / 4096 % 64, 128 + n / 64 % 64, 128 + n % 64]

/-- The characters urllib.parse.quote never encodes: ASCII letters, digits,
underscore, dot, dash and tilde. -/
def alwaysSafe (c : Char) : Bool :=
  decide ((97 ≤ c.toNat ∧ c.toNat ≤ 122) ∨ (65 ≤ c.toNat ∧ c.toNat ≤ 90) ∨
    (48 ≤ c.toNat ∧ c.toNat ≤ 57) ∨ c = '_' ∨ c = '.' ∨ c = '-' ∨ c = '~')

/-- Models urllib.parse.quote_plus: a space becomes a plus sign, a safe
character stands, anything else is percent-encoded byte by byte. -/
def quote_plus (s : String) : String :=
  String.mk (List.flatten (s.data.map (fun c =>
    if c = ' ' then ['+']
    else if alwaysSafe c then [c]
    else List.flatten ((utf8Bytes c).map pctByte))))

/-- Source lines 14-19: the configured keyword phrases. -/
def KEYWORDS : List String :=
  ["Frommer Stop 1912 firing pin", "Frommer Stop firing pin",
   "Frommer 1912 firing pin", "Frommer firing pin"]

/-- Source line 20: PATTERN is the case-insensitive alternation of the
lower-cased, regex-escaped keywords; a search with it succeeds exactly when
the text contains some lower-cased keyword, case-insensitively (the escape
makes each alternative a literal).  The keyword list is a parameter so that
theorems can speak about the configured list and about variations of it. -/
def pattern_search (kws : List String) (s : String) : Bool :=
  kws.any (fun k => infixOfB (lower k).data (lower s).data)

/-- Source lines 22-26: the site registry, in its iteration order. -/
def SITES : List (String × String) :=
  [("ebay", "https://www.ebay.com/sch/i.html?_nkw={q}&_sop=10"),
   ("gunbroker", "https://www.gunbroker.com/All/search?Keywords={q}"),
   ("numrich", "https://www.numrichgunparts.com/search?query={q}")]

/-- Source line 34: the default request timeout in seconds. -/
def REQUEST_TIMEOUT : Nat := 15

/-- The observable outcome of one HTTP request: a response with a status
code and a body text, or a raised transport error (connection failure,
timeout, too many redirects). -/
inductive FetchOutcome where
  | response (status : Nat) (text : String)
  | error (msg : String)
deriving DecidableEq

/-- Source lines 38-45, fetch.  The http argument stands for the network:
what requests.get returns or raises for a URL and a timeout.  The library
call raise_for_status raises exactly for status codes 400 to 599, and the
except clause turns any raised exception into an empty string, so fetch
never raises. -/
def fetch (http : String → Nat → FetchOutcome) (url : String) (timeout : Nat) : String :=
  match http url timeout with
  | FetchOutcome.error _ => ""
  | FetchOutcome.response status text =>
      if 400 ≤ status ∧ status < 600 then "" else text

/-- An anchor element as BeautifulSoup presents it to the script: its
stripped text content and its href attribute when one is present. -/
structure Tag where
  text : String
  href : Option String
deriving DecidableEq

/-- One selected result card: the title anchor select_one finds in it, and
the text of the price element when one is present. -/
structure Card where
  link : Option Tag
  price : Option String
deriving DecidableEq

/-- The listing dicts the parsers build: site, title, url, price. -/
structure Listing where
  site : String
  title : String
  url : String
  price : String
deriving DecidableEq

/-- Source lines 48-62, parse_ebay, applied to the cards the s-item
selector yields: skip a card without a link anchor or without an href,
otherwise record title, href and optional price text. -/
def parse_ebay (cards : List Card) : List Listing :=
  cards.filterMap (fun item =>
    match item.link with
    | none => none
    | some a =>
      let title := a.text
      let url := a.href.getD ""
      if url = "" then none
      else some ⟨"eBay", title, url, item.price.getD ""⟩)

/-- Source lines 65-86, parse_gunbroker, applied to the selected cards:
skip a card without an anchor or href; an href starting with a slash gets
the origin prefixed, an href starting with http stands, anything else is
joined to the origin after stripping leading slashes. -/
def parse_gunbroker (cards : List Card) : List Listing :=
  cards.filterMap (fun c =>
    match c.link with
    | none => none
    | some a =>
      let title := a.text
      let href := a.href.getD ""
      if href = "" then none
      else
        let url :=
          if startswith href "/" then "https://www.gunbroker.com" ++ href
          else if startswith href "http" then href
          else "https://www.gunbroker.com/" ++ lstripSlash href
        some ⟨"GunBroker", title, url, c.price.getD ""⟩)

/-- Source lines 89-107, parse_numrich, applied to every anchor with an
href attribute: skip anchors whose text is shorter than five characters or
whose href is empty; normalize the href as parse_gunbroker does; the price
is always empty. -/
def parse_numrich (anchors : List Tag) : List Listing :=
  anchors.filterMap (fun card =>
    let text := card.text
    if text.length < 5 then none
    else
      let href := card.href.getD ""
      if href = "" then none
      else
        let url :=
          if startswith href "/" then "https://www.numrichgunparts.com" ++ href
          else if startswith href "http" then href
          else "https://www.numrichgunparts.com/" ++ lstripSlash href
        some ⟨"Numrich", text, url, ""⟩)

/-- Source lines 110-115, safe_parse: the parser composed with the HTML
library may raise, modelled as an Except value; an error is logged and
becomes the empty list. -/
def safe_parse (fn : String → Except String (List Listing)) (html : String)
    (label : String) : List Listing :=
  match fn html with
  | Except.ok items => items
  | Except.error _ => []

/-- Source lines 118-119, the function named matches there (that word is a
keyword in Lean): the title is looked up with dict get (none models a
missing key), a missing or None title becomes the empty string, and the
lower-cased result is searched with the keyword pattern. -/
def matchesFn (kws : List String) (title : Option String) : Bool :=
  pattern_search kws (lower (title.getD ""))

/-- Source lines 30-32: the notification configuration read from the
environment; a variable that is unset is none (dict get with a default
makes NOTIFY_METHOD always a string). -/
structure NotifyConfig where
  NOTIFY_METHOD : String
  TELEGRAM_BOT_TOKEN : Option String
  TELEGRAM_CHAT_ID : Option String
deriving DecidableEq

/-- What send_telegram observably does with a message: log that the method
is disabled and return, log the missing credentials and return, or attempt
the HTTP POST (whose outcome, success, bad status or raised error, is
carried along; the code logs bad statuses and swallows raised errors). -/
inductive SendAction where
  | disabled
  | notConfigured
  | posted (outcome : FetchOutcome)
deriving DecidableEq

/-- Source lines 122-138, send_telegram.  Python truthiness makes an unset
or empty token or chat id count as missing.  The post argument stands for
the network: what requests.post returns or raises for the send endpoint.
Every branch returns normally, so the function never raises. -/
def send_telegram (cfg : NotifyConfig) (post : FetchOutcome) (message : String) :
    SendAction :=
  if cfg.NOTIFY_METHOD ≠ "telegram" then SendAction.disabled
  else if cfg.TELEGRAM_BOT_TOKEN.getD "" = "" ∨ cfg.TELEGRAM_CHAT_ID.getD "" = "" then
    SendAction.notConfigured
  else SendAction.posted post

/-- The world run_once interacts with: the network for fetch, and for each
site the HTML library pass (BeautifulSoup construction plus selection),
which yields the cards or anchors the parser consumes, or raises. -/
structure Env where
  http : String → Nat → FetchOutcome
  soup_ebay : String → Except String (List Card)
  soup_gunbroker : String → Except String (List Card)
  soup_numrich : String → Except String (List Tag)

/-- Source lines 158-161, the body of the accumulation loop: a listing is
appended to found and its url added to seen exactly when it matches the
pattern and its url is not yet seen.  The state is the pair of found and
seen; seen, a Python set, is modelled as the list of added urls with
membership as the set test. -/
def record_item (kws : List String) (st : List Listing × List String) (it : Listing) :
    List Listing × List String :=
  if matchesFn kws (some it.title) && !(st.2.contains it.url) then
    (st.1 ++ [it], st.2 ++ [it.url])
  else st

/-- The listings one site contributes to a run with encoded query q: the
site URL is built from the template, fetched, an empty body is skipped, and
otherwise the site's guarded parser runs on the body. -/
def site_listings (env : Env) (q : String) (p : String × String) : List Listing :=
  let url := format_q p.2 q
  let html := fetch env.http url REQUEST_TIMEOUT
  if html = "" then []
  else if p.1 = "ebay" then
    safe_parse (fun h => (env.soup_ebay h).map parse_ebay) html "eBay"
  else if p.1 = "gunbroker" then
    safe_parse (fun h => (env.soup_gunbroker h).map parse_gunbroker) html "GunBroker"
  else if p.1 = "numrich" then
    safe_parse (fun h => (env.soup_numrich h).map parse_numrich) html "Numrich"
  else []

/-- Source lines 167-169: the summary message, a count header line followed
by one block per found listing, joined with blank lines. -/
def compose_message (found : List Listing) : String :=
  let lines := (Nat.repr found.length ++ " new Frommer Stop part(s) found:") ::
    found.map (fun it => it.site ++ ": " ++ it.title ++ "\n" ++ it.url ++ " " ++ it.price)
  pyJoin "\n\n" lines

/-- What one run observably does: the retained listings, the URLs fetched
in order, and the message handed to the notifier when there is one. -/
structure RunResult where
  found : List Listing
  fetched : List String
  sent : Option String
deriving DecidableEq

/-- The body of the per-site loop of run_once (source lines 144-161): build
the site URL from the template and the already-encoded query, fetch it,
skip the site when the body is empty, dispatch to the site's guarded
parser, and run every parsed listing through the accumulation loop.  The
state carries the found-and-seen pair together with the list of URLs
fetched so far. -/
def site_step (kws : List String) (env : Env) (q : String)
    (acc : (List Listing × List String) × List String) (p : String × String) :
    (List Listing × List String) × List String :=
  let url := format_q p.2 q
  let fetched := acc.2 ++ [url]
  let html := fetch env.http url REQUEST_TIMEOUT
  if html = "" then (acc.1, fetched)
  else
    let items :=
      if p.1 = "ebay" then
        safe_parse (fun h => (env.soup_ebay h).map parse_ebay) html "eBay"
      else if p.1 = "gunbroker" then
        safe_parse (fun h => (env.soup_gunbroker h).map parse_gunbroker) html "GunBroker"
      else if p.1 = "numrich" then
        safe_parse (fun h => (env.soup_numrich h).map parse_numrich) html "Numrich"
      else []
    (items.foldl (record_item kws) acc.1, fetched)

/-- Source lines 163-170, the tail of run_once: when found is empty only a
log line is written and nothing is sent; otherwise the summary message is
composed and handed to send_telegram. -/
def finish_run (st : (List Listing × List String) × List String) : RunResult :=
  if st.1.1 = [] then ⟨st.1.1, st.2, none⟩
  else ⟨st.1.1, st.2, some (compose_message st.1.1)⟩

/-- Source lines 141-170, run_once.  The keyword list is a parameter (the
script reads the global KEYWORDS, which is statically non-empty, so headD
models the subscript KEYWORDS[0]).  The query is encoded once, by the one
quote_plus application below, and passed unchanged to every site's step;
each site in registry order is fetched and parsed, every parsed listing
goes through the accumulation loop, and finish_run composes the summary
exactly when found is non-empty. -/
def run_once (kws : List String) (env : Env) : RunResult :=
  finish_run (SITES.foldl (site_step kws env (quote_plus (kws.headD ""))) (([], []), []))

/-- The accumulation loop of run_once run from the empty state over a list
of parsed listings. -/
def processItems (kws : List String) (items : List Listing) : List Listing × List String :=
  items.foldl (record_item kws) ([], [])

/-- Claim-side definition, following the spec's words: the string hay
contains the string k as a substring, case-insensitively. -/
def containsCI (hay k : String) : Prop := (lower k).data <:+: (lower hay).data

instance (hay k : String) : Decidable (containsCI hay k) :=
  List.decidableInfix (lower k).data (lower hay).data

/-- Claim-side definition, following the spec's words for href
normalization: an href beginning with a slash gets the site's origin
prefixed, an href beginning with http is used unchanged, and any other href
is joined to the site's origin as a relative path. -/
def hrefResolvedSpec (origin href : String) : String :=
  if startswith href "/" then origin ++ href
  else if startswith href "http" then href
  else origin ++ "/" ++ href

/-- Claim-side definition: the per-listing blocks of the summary, each
consisting of a blank-line separator, the site-and-title line and the
url-and-price line. -/
def summary_blocks : List Listing → String
  | [] => ""
  | it :: rest =>
    "\n\n" ++ it.site ++ ": " ++ it.title ++ "\n" ++ it.url ++ " " ++ it.price ++
      summary_blocks rest

/-- Claim-side definition, following the spec's words for the summary: the
count header followed by one block per retained listing. -/
def summary_spec (found : List Listing) : String :=
  Nat.repr found.length ++ " new Frommer Stop part(s) found:" ++ summary_blocks found

/-! ### Lemmas about the string helpers -/

theorem infixOfB_iff (pat l : List Char) : infixOfB pat l = true ↔ pat <:+: l := by
  induction l with
  | nil => simp [infixOfB, List.isEmpty_iff, List.infix_nil]
  | cons a t ih =>
    simp only [infixOfB, Bool.or_eq_true, List.isPrefixOf_iff_prefix, ih,
      List.infix_cons_iff]

theorem lstripSlash_of_not_slash (s : String) (h : startswith s "/" = false) :
    lstripSlash s = s := by
  apply String.ext
  unfold startswith at h
  have hslash : ("/" : String).data = ['/'] := rfl
  rw [hslash] at h
  show s.data.dropWhile (fun c => c == '/') = s.data
  cases hd : s.data with
  | nil => simp
  | cons a t =>
    rw [hd] at h
    have ha : ¬(a = '/') := by
      intro he
      subst he
      simp [List.isPrefixOf] at h
    simp [List.dropWhile_cons, ha]

theorem contains_true_iff (l : List String) (u : String) : l.contains u = true ↔ u ∈ l := by
  show l.elem u = true ↔ u ∈ l
  exact List.elem_iff

/-! ### Lemmas about the accumulation loop -/

theorem record_item_seen_mem (kws : List String) (st : List Listing × List String)
    (it : Listing) (u : String) (h : u ∈ st.2) : u ∈ (record_item kws st it).2 := by
  unfold record_item
  split
  · exact List.mem_append.2 (Or.inl h)
  · exact h

theorem foldl_record_seen_mem (kws : List String) (l : List Listing)
    (st : List Listing × List String) (u : String) (h : u ∈ st.2) :
    u ∈ (l.foldl (record_item kws) st).2 := by
  induction l generalizing st with
  | nil => exact h
  | cons x t ih => exact ih _ (record_item_seen_mem kws st x u h)

theorem record_item_url_mem (kws : List String) (st : List Listing × List String)
    (it : Listing) (h : matchesFn kws (some it.title) = true) :
    it.url ∈ (record_item kws st it).2 := by
  unfold record_item
  split
  case isTrue => exact List.mem_append.2 (Or.inr (by simp))
  case isFalse hc =>
    rw [Bool.and_eq_true] at hc
    push_neg at hc
    have hcontains : st.2.contains it.url = true := by simpa using hc h
    exact (contains_true_iff _ _).1 hcontains

theorem record_item_skip (kws : List String) (st : List Listing × List String)
    (it : Listing) (h : it.url ∈ st.2) : record_item kws st it = st := by
  unfold record_item
  rw [if_neg]
  intro hcond
  rw [Bool.and_eq_true] at hcond
  rw [(contains_true_iff _ _).2 h] at hcond
  simp at hcond

theorem record_item_nomatch (kws : List String) (st : List Listing × List String)
    (x : Listing) (h : matchesFn kws (some x.title) = false) :
    record_item kws st x = st := by
  unfold record_item
  simp [h]

/-- The loop invariant of run_once: seen is exactly the list of urls of
found, every found listing matches, and the urls of found are distinct. -/
def GoodState (kws : List String) (st : List Listing × List String) : Prop :=
  st.2 = st.1.map Listing.url ∧
  (∀ it ∈ st.1, matchesFn kws (some it.title) = true) ∧
  (st.1.map Listing.url).Nodup

theorem record_item_good (kws : List String) (st : List Listing × List String)
    (it : Listing) (h : GoodState kws st) : GoodState kws (record_item kws st it) := by
  obtain ⟨h1, h2, h3⟩ := h
  unfold record_item
  split
  case isTrue hc =>
    rw [Bool.and_eq_true] at hc
    obtain ⟨hm, hns⟩ := hc
    simp only [Bool.not_eq_true'] at hns
    have hnm : it.url ∉ st.1.map Listing.url := by
      rw [← h1]
      intro hmem
      rw [(contains_true_iff _ _).2 hmem] at hns
      exact Bool.noConfusion hns
    refine ⟨?_, ?_, ?_⟩
    · rw [h1, List.map_append]
      rfl
    · intro x hx
      rcases List.mem_append.1 hx with hx | hx
      · exact h2 x hx
      · rw [List.mem_singleton.1 hx]
        exact hm
    · rw [List.map_append]
      refine List.nodup_append.2 ⟨h3, List.nodup_singleton _, ?_⟩
      simpa [List.disjoint_singleton] using hnm
  case isFalse => exact ⟨h1, h2, h3⟩

theorem foldl_record_good (kws : List String) (l : List Listing)
    (st : List Listing × List String) (h : GoodState kws st) :
    GoodState kws (l.foldl (record_item kws) st) := by
  induction l generalizing st with
  | nil => exact h
  | cons x t ih => exact ih _ (record_item_good kws st x h)

theorem processItems_good (kws : List String) (items : List Listing) :
    GoodState kws (processItems kws items) := by
  refine foldl_record_good kws items ([], []) ⟨rfl, ?_, ?_⟩
  · intro it h
    cases h
  · exact List.nodup_nil

/-! ### Lemmas about run_once -/

theorem site_step_found (kws : List String) (env : Env) (q : String)
    (acc : (List Listing × List String) × List String) (p : String × String) :
    (site_step kws env q acc p).1 = (site_listings env q p).foldl (record_item kws) acc.1 := by
  unfold site_step site_listings
  by_cases h : fetch env.http (format_q p.2 q) REQUEST_TIMEOUT = "" <;> simp [h]

theorem site_step_fetched (kws : List String) (env : Env) (q : String)
    (acc : (List Listing × List String) × List String) (p : String × String) :
    (site_step kws env q acc p).2 = acc.2 ++ [format_q p.2 q] := by
  unfold site_step
  by_cases h : fetch env.http (format_q p.2 q) REQUEST_TIMEOUT = "" <;> simp [h]

theorem foldl_site_step_found (kws : List String) (env : Env) (q : String)
    (sites : List (String × String)) (acc : (List Listing × List String) × List String) :
    (sites.foldl (site_step kws env q) acc).1 =
      ((sites.map (site_listings env q)).flatten).foldl (record_item kws) acc.1 := by
  induction sites generalizing acc with
  | nil => rfl
  | cons p rest ih =>
    rw [List.foldl_cons, ih, List.map_cons, List.flatten_cons, List.foldl_append,
      site_step_found]

theorem foldl_site_step_fetched (kws : List String) (env : Env) (q : String)
    (sites : List (String × String)) (acc : (List Listing × List String) × List String) :
    (sites.foldl (site_step kws env q) acc).2 =
      acc.2 ++ sites.map (fun p => format_q p.2 q) := by
  induction sites generalizing acc with
  | nil => simp
  | cons p rest ih =>
    rw [List.foldl_cons, ih, site_step_fetched, List.map_cons]
    simp

theorem finish_run_found (st : (List Listing × List String) × List String) :
    (finish_run st).found = st.1.1 := by
  unfold finish_run
  split <;> rfl

theorem finish_run_fetched (st : (List Listing × List String) × List String) :
    (finish_run st).fetched = st.2 := by
  unfold finish_run
  split <;> rfl

theorem finish_run_sent (st : (List Listing × List String) × List String) :
    (finish_run st).sent = if st.1.1 = [] then none else some (compose_message st.1.1) := by
  unfold finish_run
  split <;> simp_all

theorem run_once_found_eq (kws : List String) (env : Env) :
    (run_once kws env).found =
      (processItems kws ((SITES.map (site_listings env (quote_plus (kws.headD "")))).flatten)).1 := by
  unfold run_once processItems
  rw [finish_run_found,
    foldl_site_step_found kws env (quote_plus (kws.headD "")) SITES (([], []), [])]

theorem run_once_fetched_eq (kws : List String) (env : Env) :
    (run_once kws env).fetched =
      SITES.map (fun p => format_q p.2 (quote_plus (kws.headD ""))) := by
  unfold run_once
  rw [finish_run_fetched,
    foldl_site_step_fetched kws env (quote_plus (kws.headD "")) SITES (([], []), [])]
  rfl

theorem run_once_sent_of_empty (kws : List String) (env : Env)
    (h : (run_once kws env).found = []) : (run_once kws env).sent = none := by
  rw [run_once, finish_run_found] at h
  rw [run_once, finish_run_sent, if_pos h]

theorem run_once_sent_of_nonempty (kws : List String) (env : Env)
    (h : (run_once kws env).found ≠ []) :
    (run_once kws env).sent = some (compose_message ((run_once kws env).found)) := by
  rw [run_once, finish_run_found] at h
  rw [run_once, finish_run_sent, if_neg h, finish_run_found]

/-! ### Lemmas about the summary message -/

theorem pyJoin_header (h : String) (l : List Listing) :
    pyJoin "\n\n"
        (h :: l.map (fun it => it.site ++ ": " ++ it.title ++ "\n" ++ it.url ++ " " ++ it.price)) =
      h ++ summary_blocks l := by
  induction l generalizing h with
  | nil =>
    apply String.ext
    simp [pyJoin, summary_blocks, String.data_append]
  | cons it rest ih =>
    rw [List.map_cons]
    show (h ++ "\n\n" ++
        pyJoin "\n\n"
          (((fun it => it.site ++ ": " ++ it.title ++ "\n" ++ it.url ++ " " ++ it.price) it) ::
            rest.map (fun it => it.site ++ ": " ++ it.title ++ "\n" ++ it.url ++ " " ++ it.price))) =
      h ++ summary_blocks (it :: rest)
    rw [ih]
    apply String.ext
    simp [summary_blocks, String.data_append, List.append_assoc]

theorem compose_message_eq_spec (found : List Listing) :
    compose_message found = summary_spec found := by
  unfold compose_message summary_spec
  exact pyJoin_header _ found

/-! ### The claims -/

/-- C1: matches returns true exactly when the title, lower-cased, contains
at least one configured keyword as a substring, case-insensitively; a
missing or empty title never matches. -/
theorem c1_matches_iff_keyword_substring (title : Option String) :
    (matchesFn KEYWORDS title = true ↔
      ∃ k ∈ KEYWORDS, containsCI (lower (title.getD "")) k) ∧
    matchesFn KEYWORDS none = false ∧ matchesFn KEYWORDS (some "") = false := by
  refine ⟨?_, by decide, by decide⟩
  unfold matchesFn pattern_search containsCI
  rw [List.any_eq_true]
  constructor
  · rintro ⟨k, hk, hinf⟩
    exact ⟨k, hk, (infixOfB_iff _ _).1 hinf⟩
  · rintro ⟨k, hk, hinf⟩
    exact ⟨k, hk, (infixOfB_iff _ _).2 hinf⟩

theorem c1_witness :
    matchesFn KEYWORDS (some "NOS Frommer STOP Firing Pin 1912") = true ∧
    matchesFn KEYWORDS (some "irrelevant widget item") = false :=
  ⟨(c1_matches_iff_keyword_substring (some "NOS Frommer STOP Firing Pin 1912")).1.2
      ⟨"Frommer Stop firing pin", by decide, by decide⟩,
    by decide⟩

/-- C2, counterexample: a run in which the eBay page parses to two listings
with the identical URL, the first of which does not match the pattern while
the second does.  The claim says only the first encountered is retained and
the second discarded; the code retains the second (and not the first). -/
theorem c2_counterexample :
    (parse_ebay
        [⟨some ⟨"irrelevant widget item", some "https://dup/item"⟩, none⟩,
         ⟨some ⟨"Frommer Stop firing pin NOS", some "https://dup/item"⟩, some "$10"⟩] =
      [⟨"eBay", "irrelevant widget item", "https://dup/item", ""⟩,
       ⟨"eBay", "Frommer Stop firing pin NOS", "https://dup/item", "$10"⟩]) ∧
    (run_once KEYWORDS
        ⟨fun _ _ => FetchOutcome.response 200 "page",
         fun _ => Except.ok
           [⟨some ⟨"irrelevant widget item", some "https://dup/item"⟩, none⟩,
            ⟨some ⟨"Frommer Stop firing pin NOS", some "https://dup/item"⟩, some "$10"⟩],
         fun _ => Except.ok [], fun _ => Except.ok []⟩).found =
      [⟨"eBay", "Frommer Stop firing pin NOS", "https://dup/item", "$10"⟩] := by
  constructor
  · decide
  · decide

/-- C2, amended: when two parsed listings carry the identical URL and the
earlier one matches the keyword pattern, the later one is discarded: the
accumulation loop gives the same result as if the later one were absent (in
particular at most one listing per URL is ever retained, the first matching
one). -/
theorem c2_first_url_retained (kws : List String) (pre mid post : List Listing)
    (x y : Listing) (hm : matchesFn kws (some x.title) = true) (hurl : x.url = y.url) :
    processItems kws (pre ++ x :: (mid ++ y :: post)) =
      processItems kws (pre ++ x :: (mid ++ post)) := by
  unfold processItems
  rw [List.foldl_append, List.foldl_append, List.foldl_cons, List.foldl_cons,
    List.foldl_append, List.foldl_append, List.foldl_cons]
  have hmem : y.url ∈
      (mid.foldl (record_item kws)
        (record_item kws (pre.foldl (record_item kws) ([], [])) x)).2 := by
    rw [← hurl]
    exact foldl_record_seen_mem kws mid _ x.url
      (record_item_url_mem kws _ x hm)
  rw [record_item_skip kws _ y hmem]

theorem c2_amended_witness :
    processItems KEYWORDS
        ([] ++ ⟨"eBay", "Frommer Stop firing pin NOS", "https://dup/item", ""⟩ ::
          ([] ++ ⟨"GunBroker", "Frommer Stop firing pin", "https://dup/item", "$5"⟩ :: [])) =
      processItems KEYWORDS
        ([] ++ ⟨"eBay", "Frommer Stop firing pin NOS", "https://dup/item", ""⟩ :: ([] ++ [])) :=
  c2_first_url_retained KEYWORDS [] [] []
    ⟨"eBay", "Frommer Stop firing pin NOS", "https://dup/item", ""⟩
    ⟨"GunBroker", "Frommer Stop firing pin", "https://dup/item", "$5"⟩ (by decide) rfl

/-- C3, counterexample: a 304 response is not 2xx, yet raise_for_status
accepts it, so fetch returns its non-empty body rather than the empty
string the claim requires for any non-2xx status. -/
theorem c3_counterexample :
    fetch (fun _ _ => FetchOutcome.response 304 "cached body") "https://www.ebay.com/"
        REQUEST_TIMEOUT = "cached body" ∧
    ¬(200 ≤ 304 ∧ 304 < 300) ∧ ("cached body" : String) ≠ "" := by
  refine ⟨by decide, by decide, by decide⟩

/-- C3, amended: fetch is total (it never raises); it returns the empty
string when the request raised a transport error or timeout, or when the
response status is in 400..599 (the statuses raise_for_status rejects), and
otherwise returns the body text - in particular on every 2xx status. -/
theorem c3_fetch_amended (http : String → Nat → FetchOutcome) (url : String) (timeout : Nat) :
    (∀ msg, http url timeout = FetchOutcome.error msg → fetch http url timeout = "") ∧
    (∀ status text, http url timeout = FetchOutcome.response status text →
      ((400 ≤ status ∧ status < 600) → fetch http url timeout = "") ∧
      (¬(400 ≤ status ∧ status < 600) → fetch http url timeout = text) ∧
      ((200 ≤ status ∧ status < 300) → fetch http url timeout = text)) := by
  refine ⟨?_, ?_⟩
  · intro msg h
    unfold fetch
    rw [h]
  · intro status text h
    refine ⟨fun hc => ?_, fun hc => ?_, fun h2 => ?_⟩
    · simp only [fetch, h]
      rw [if_pos hc]
    · simp only [fetch, h]
      rw [if_neg hc]
    · simp only [fetch, h]
      rw [if_neg (by omega)]

theorem c3_amended_witness :
    fetch (fun _ _ => FetchOutcome.response 200 "ok body") "https://www.ebay.com/" 15 =
      "ok body" ∧
    fetch (fun _ _ => FetchOutcome.error "timed out") "https://www.ebay.com/" 15 = "" ∧
    fetch (fun _ _ => FetchOutcome.response 503 "oops") "https://www.ebay.com/" 15 = "" :=
  ⟨((c3_fetch_amended (fun _ _ => FetchOutcome.response 200 "ok body")
        "https://www.ebay.com/" 15).2 200 "ok body" rfl).2.2 (by decide),
   (c3_fetch_amended (fun _ _ => FetchOutcome.error "timed out")
        "https://www.ebay.com/" 15).1 "timed out" rfl,
   ((c3_fetch_amended (fun _ _ => FetchOutcome.response 503 "oops")
        "https://www.ebay.com/" 15).2 503 "oops" rfl).1 (by decide)⟩

/-- C4: the guard around each site parser: a successful parse is returned
as is, and a raised parsing exception yields the empty sequence; safe_parse
is a total function, so no exception propagates to the orchestrator. -/
theorem c4_safe_parse_guard (fn : String → Except String (List Listing))
    (html label : String) :
    (∀ e, fn html = Except.error e → safe_parse fn html label = []) ∧
    (∀ items, fn html = Except.ok items → safe_parse fn html label = items) := by
  constructor
  · intro e h
    unfold safe_parse
    rw [h]
  · intro items h
    unfold safe_parse
    rw [h]

theorem c4_witness :
    safe_parse (fun _ => Except.error "parser crash") "<html" "eBay" = [] ∧
    safe_parse (fun _ => Except.ok ([] : List Listing)) "" "Numrich" = [] :=
  ⟨(c4_safe_parse_guard (fun _ => Except.error "parser crash") "<html" "eBay").1
      "parser crash" rfl,
   (c4_safe_parse_guard (fun _ => Except.ok ([] : List Listing)) "" "Numrich").2 [] rfl⟩

/-- C5: a run that retains no matched-and-new listing hands nothing to the
notifier: its sent message is none. -/
theorem c5_no_match_no_notification (kws : List String) (env : Env)
    (h : (run_once kws env).found = []) : (run_once kws env).sent = none :=
  run_once_sent_of_empty kws env h

theorem c5_witness :
    (run_once KEYWORDS
        ⟨fun _ _ => FetchOutcome.error "down", fun _ => Except.ok [],
         fun _ => Except.ok [], fun _ => Except.ok []⟩).sent = none :=
  c5_no_match_no_notification KEYWORDS
    ⟨fun _ _ => FetchOutcome.error "down", fun _ => Except.ok [],
     fun _ => Except.ok [], fun _ => Except.ok []⟩ (by decide)

/-- C6: send_telegram attempts no HTTP call when the method is not
telegram (it returns the disabled action) or when a credential is unset or
empty (the not-configured action); a call is attempted exactly when the
method is telegram and both credentials are non-empty, and then every
outcome of the call, success, bad status or raised transport error, is
swallowed: the function returns the posted action and never raises. -/
theorem c6_notifier_gating (cfg : NotifyConfig) (post : FetchOutcome) (message : String) :
    (cfg.NOTIFY_METHOD ≠ "telegram" → send_telegram cfg post message = SendAction.disabled) ∧
    (cfg.NOTIFY_METHOD = "telegram" →
      (cfg.TELEGRAM_BOT_TOKEN.getD "" = "" ∨ cfg.TELEGRAM_CHAT_ID.getD "" = "") →
      send_telegram cfg post message = SendAction.notConfigured) ∧
    ((∃ o, send_telegram cfg post message = SendAction.posted o) ↔
      cfg.NOTIFY_METHOD = "telegram" ∧ cfg.TELEGRAM_BOT_TOKEN.getD "" ≠ "" ∧
        cfg.TELEGRAM_CHAT_ID.getD "" ≠ "") := by
  unfold send_telegram
  by_cases h1 : cfg.NOTIFY_METHOD = "telegram"
  · rw [if_neg (not_not_intro h1)]
    by_cases h2 : cfg.TELEGRAM_BOT_TOKEN.getD "" = "" ∨ cfg.TELEGRAM_CHAT_ID.getD "" = ""
    · rw [if_pos h2]
      refine ⟨fun hc => absurd h1 hc, fun _ _ => rfl, ?_⟩
      constructor
      · rintro ⟨o, ho⟩
        cases ho
      · rintro ⟨-, ha, hb⟩
        rcases h2 with h2 | h2
        · exact absurd h2 ha
        · exact absurd h2 hb
    · rw [if_neg h2]
      push_neg at h2
      refine ⟨fun hc => absurd h1 hc, fun _ hor => ?_, ?_⟩
      · rcases hor with h | h
        · exact absurd h h2.1
        · exact absurd h h2.2
      · constructor
        · intro _
          exact ⟨h1, h2.1, h2.2⟩
        · intro _
          exact ⟨post, rfl⟩
  · rw [if_pos h1]
    refine ⟨fun _ => rfl, fun hc => absurd hc h1, ?_⟩
    constructor
    · rintro ⟨o, ho⟩
      cases ho
    · rintro ⟨hc, -, -⟩
      exact absurd hc h1

theorem c6_witness :
    send_telegram ⟨"none", some "token123", some "chat456"⟩
        (FetchOutcome.response 200 "ok") "msg" = SendAction.disabled ∧
    send_telegram ⟨"telegram", none, some "chat456"⟩
        (FetchOutcome.response 200 "ok") "msg" = SendAction.notConfigured ∧
    send_telegram ⟨"telegram", some "token123", some "chat456"⟩
        (FetchOutcome.error "net down") "msg" =
      SendAction.posted (FetchOutcome.error "net down") :=
  ⟨(c6_notifier_gating ⟨"none", some "token123", some "chat456"⟩
        (FetchOutcome.response 200 "ok") "msg").1 (by decide),
   (c6_notifier_gating ⟨"telegram", none, some "chat456"⟩
        (FetchOutcome.response 200 "ok") "msg").2.1 rfl (Or.inl rfl),
   by decide⟩

/-- C7: a run fetches exactly the registry's URLs with the first keyword,
URL-encoded, substituted for each template's query placeholder; the encoded
query is the same for every site, the remaining keywords play no part in
which URLs are fetched, and for the configured keyword list the fetched
URLs are the three listed ones. -/
theorem c7_primary_keyword_query (env : Env) (k0 : String) (rest rest2 : List String) :
    ((run_once (k0 :: rest) env).fetched =
      SITES.map (fun p => format_q p.2 (quote_plus k0))) ∧
    (run_once (k0 :: rest) env).fetched = (run_once (k0 :: rest2) env).fetched ∧
    (run_once KEYWORDS env).fetched =
      ["https://www.ebay.com/sch/i.html?_nkw=Frommer+Stop+1912+firing+pin&_sop=10",
       "https://www.gunbroker.com/All/search?Keywords=Frommer+Stop+1912+firing+pin",
       "https://www.numrichgunparts.com/search?query=Frommer+Stop+1912+firing+pin"] := by
  have h1 := run_once_fetched_eq (k0 :: rest) env
  have h2 := run_once_fetched_eq (k0 :: rest2) env
  refine ⟨h1, h1.trans h2.symm, ?_⟩
  rw [run_once_fetched_eq KEYWORDS env]
  decide

theorem resolve_origin (origin originSlash href : String) (h : originSlash = origin ++ "/") :
    (if startswith href "/" then origin ++ href
     else if startswith href "http" then href
     else originSlash ++ lstripSlash href) = hrefResolvedSpec origin href := by
  unfold hrefResolvedSpec
  by_cases h1 : startswith href "/" = true
  · rw [if_pos h1, if_pos h1]
  · have h1f : startswith href "/" = false := by simpa using h1
    rw [if_neg h1, if_neg h1]
    by_cases h2 : startswith href "http" = true
    · rw [if_pos h2, if_pos h2]
    · rw [if_neg h2, if_neg h2, lstripSlash_of_not_slash href h1f, h]

/-- C8: every URL the GunBroker or Numrich parser produces is obtained from
the anchor's non-empty href by the spec's three-way normalization: origin
prefixed when the href begins with a slash, the href itself when it begins
with http, and origin-slash-href otherwise. -/
theorem c8_href_normalization (cards : List Card) (anchors : List Tag) (l : Listing) :
    (l ∈ parse_gunbroker cards →
      ∃ c ∈ cards, ∃ a : Tag, c.link = some a ∧ a.href.getD "" ≠ "" ∧
        l.url = hrefResolvedSpec "https://www.gunbroker.com" (a.href.getD "")) ∧
    (l ∈ parse_numrich anchors →
      ∃ t ∈ anchors, t.href.getD "" ≠ "" ∧
        l.url = hrefResolvedSpec "https://www.numrichgunparts.com" (t.href.getD "")) := by
  constructor
  · intro hl
    obtain ⟨c, hc, hf⟩ := List.mem_filterMap.1 hl
    cases hlink : c.link with
    | none => simp [hlink] at hf
    | some a =>
      simp only [hlink] at hf
      by_cases hhref : a.href.getD "" = ""
      · simp [hhref] at hf
      · refine ⟨c, hc, a, hlink, hhref, ?_⟩
        rw [if_neg hhref] at hf
        rw [← Option.some.inj hf]
        exact resolve_origin "https://www.gunbroker.com" "https://www.gunbroker.com/"
          (a.href.getD "") (by decide)
  · intro hl
    obtain ⟨t, ht, hf⟩ := List.mem_filterMap.1 hl
    by_cases hlen : t.text.length < 5
    · simp [hlen] at hf
    · rw [if_neg hlen] at hf
      by_cases hhref : t.href.getD "" = ""
      · simp [hhref] at hf
      · refine ⟨t, ht, hhref, ?_⟩
        rw [if_neg hhref] at hf
        rw [← Option.some.inj hf]
        exact resolve_origin "https://www.numrichgunparts.com"
          "https://www.numrichgunparts.com/" (t.href.getD "") (by decide)

theorem c8_witness :
    (⟨"GunBroker", "Frommer Stop hammer", "https://www.gunbroker.com/item/1", ""⟩ : Listing) ∈
      parse_gunbroker [⟨some ⟨"Frommer Stop hammer", some "/item/1"⟩, none⟩] ∧
    (∃ c ∈ [(⟨some ⟨"Frommer Stop hammer", some "/item/1"⟩, none⟩ : Card)], ∃ a : Tag,
      c.link = some a ∧ a.href.getD "" ≠ "" ∧
      ("https://www.gunbroker.com/item/1" : String) =
        hrefResolvedSpec "https://www.gunbroker.com" (a.href.getD "")) :=
  ⟨by decide,
   (c8_href_normalization [⟨some ⟨"Frommer Stop hammer", some "/item/1"⟩, none⟩] []
      ⟨"GunBroker", "Frommer Stop hammer", "https://www.gunbroker.com/item/1", ""⟩).1
     (by decide)⟩

/-- C9: whenever a run retains at least one listing, the sent message is
the count header followed, for each retained listing in retention order, by
the site-and-title line and the url-and-price line, consecutive blocks
separated by blank lines. -/
theorem c9_summary_format (kws : List String) (env : Env)
    (h : (run_once kws env).found ≠ []) :
    (run_once kws env).sent = some (summary_spec ((run_once kws env).found)) := by
  rw [run_once_sent_of_nonempty kws env h, compose_message_eq_spec]

theorem c9_witness :
    (run_once KEYWORDS
        ⟨fun _ _ => FetchOutcome.response 200 "page",
         fun _ => Except.ok [⟨some ⟨"Frommer Stop firing pin NOS", some "https://x/y"⟩, none⟩],
         fun _ => Except.ok [], fun _ => Except.ok []⟩).sent =
      some (summary_spec ((run_once KEYWORDS
        ⟨fun _ _ => FetchOutcome.response 200 "page",
         fun _ => Except.ok [⟨some ⟨"Frommer Stop firing pin NOS", some "https://x/y"⟩, none⟩],
         fun _ => Except.ok [], fun _ => Except.ok []⟩).found)) ∧
    (run_once KEYWORDS
        ⟨fun _ _ => FetchOutcome.response 200 "page",
         fun _ => Except.ok [⟨some ⟨"Frommer Stop firing pin NOS", some "https://x/y"⟩, none⟩],
         fun _ => Except.ok [], fun _ => Except.ok []⟩).sent =
      some "1 new Frommer Stop part(s) found:\n\neBay: Frommer Stop firing pin NOS\nhttps://x/y " :=
  ⟨c9_summary_format KEYWORDS
      ⟨fun _ _ => FetchOutcome.response 200 "page",
       fun _ => Except.ok [⟨some ⟨"Frommer Stop firing pin NOS", some "https://x/y"⟩, none⟩],
       fun _ => Except.ok [], fun _ => Except.ok []⟩ (by decide),
   by decide⟩

/-- C10: the loop state invariant: seen is exactly the list of URLs of the
retained listings, so every retained listing matches the pattern, retained
URLs are pairwise distinct, a non-matching listing contributes nothing to
the state (its URL never blocks a later matching listing with the same
URL), and the found component of a full run is the loop's output on the
listings the sites contribute. -/
theorem c10_seen_found_invariant (kws : List String) (items : List Listing) (env : Env) :
    ((processItems kws items).2 = (processItems kws items).1.map Listing.url) ∧
    (∀ it ∈ (processItems kws items).1, matchesFn kws (some it.title) = true) ∧
    ((processItems kws items).1.map Listing.url).Nodup ∧
    (∀ pre x post, matchesFn kws (some x.title) = false →
      processItems kws (pre ++ x :: post) = processItems kws (pre ++ post)) ∧
    (run_once kws env).found =
      (processItems kws
        ((SITES.map (site_listings env (quote_plus (kws.headD "")))).flatten)).1 := by
  obtain ⟨h1, h2, h3⟩ := processItems_good kws items
  refine ⟨h1, h2, h3, ?_, run_once_found_eq kws env⟩
  intro pre x post hx
  unfold processItems
  rw [List.foldl_append, List.foldl_append, List.foldl_cons, record_item_nomatch kws _ x hx]

theorem c10_witness :
    ((processItems KEYWORDS
        [⟨"eBay", "Frommer Stop firing pin NOS", "https://x/y", ""⟩]).2 =
      (processItems KEYWORDS
        [⟨"eBay", "Frommer Stop firing pin NOS", "https://x/y", ""⟩]).1.map Listing.url) ∧
    processItems KEYWORDS ([] ++ ⟨"eBay", "irrelevant widget item", "https://x/z", ""⟩ :: []) =
      processItems KEYWORDS ([] ++ []) :=
  ⟨(c10_seen_found_invariant KEYWORDS
      [⟨"eBay", "Frommer Stop firing pin NOS", "https://x/y", ""⟩]
      ⟨fun _ _ => FetchOutcome.error "down", fun _ => Except.ok [],
       fun _ => Except.ok [], fun _ => Except.ok []⟩).1,
   (c10_seen_found_invariant KEYWORDS []
      ⟨fun _ _ => FetchOutcome.error "down", fun _ => Except.ok [],
       fun _ => Except.ok [], fun _ => Except.ok []⟩).2.2.2.1 []
     ⟨"eBay", "irrelevant widget item", "https://x/z", ""⟩ [] (by decide)⟩

end FrommerWatcher
